import Mathlib

/-!
Shallow embedding of the telemetry/control integration layer of `app.py`
(a Flask home-monitoring dashboard).  External collaborators — the Adafruit IO
feed service (HTTP) and the Neon PostgreSQL store — are modelled as oracles
passed to each operation; the operations themselves are translated
statement-by-statement from the Python source.
-/

namespace IoTApp

/-- `FEEDS` table of `app.py` (lines 23-32): logical key → remote feed path. -/
def FEEDS : List (String × String) :=
  [("temperature", "home/temperature"),
   ("humidity", "home/humidity"),
   ("motion", "home/motion"),
   ("ctrl_light", "home/control/light"),
   ("ctrl_lcd_text", "home/control/lcd_message"),
   ("ctrl_mode", "home/control/mode"),
   ("last_image", "home/last_image_ts")]

/-- `FEEDS.get(key)` — Python `dict.get`, returning `None` for a missing key. -/
def feedsGet (k : String) : Option String :=
  FEEDS.lookup k

/-- `DB_SENSOR_MAP` of `app.py` (lines 35-38): sensor key → database column. -/
def DB_SENSOR_MAP : List (String × String) :=
  [("temperature", "temp_c"), ("humidity", "humidity_pct")]

/-- `DB_SENSOR_MAP.get`/membership lookup. -/
def dbSensorGet (k : String) : Option String :=
  DB_SENSOR_MAP.lookup k

/-- Python truthiness test `not x` for an optional string: true on `None`
and on the empty string. -/
def pyFalsyOptStr : Option String → Bool
  | none => true
  | some s => s = ""

/-- Outcome of one `requests.get` against a feed's `/data/last` endpoint:
either a `requests.exceptions.RequestException` (network failure, timeout, or
a non-2xx status surfaced by `raise_for_status`; JSON decode errors are also
`RequestException`s), or a parsed JSON body whose optional `value` field is
given. -/
inductive FeedResp where
  | netErr
  | ok (valueField : Option String)
deriving DecidableEq, Repr

/-- The value stored for one feed key by the loop body of `fetch_live_data`
(lines 51-57): `'Error'` on a `RequestException`, otherwise
`response.json().get('value', 'N/A')`. -/
def liveValue : FeedResp → String
  | .netErr => "Error"
  | .ok none => "N/A"
  | .ok (some v) => v

/-- The `for feed_key in [...]` loop of `fetch_live_data` (lines 44-58),
generalised over the iterated key list.  `net` maps a feed path to the
outcome of the GET against it.  Returns the accumulated `data` mapping
together with the list of feed paths actually fetched over the network. -/
def fetch_live_loop (net : String → FeedResp) :
    List String → List (String × String) × List String
  | [] => ([], [])
  | k :: ks =>
    let rest := fetch_live_loop net ks
    match feedsGet k with
    | none => rest
    | some fn =>
      if fn = "" then rest
      else ((k, liveValue (net fn)) :: rest.1, fn :: rest.2)

/-- `fetch_live_data` (lines 42-58): the loop applied to the hard-coded key
list `["temperature", "humidity", "motion"]`. -/
def fetch_live_data (net : String → FeedResp) :
    List (String × String) × List String :=
  fetch_live_loop net ["temperature", "humidity", "motion"]

/-- Outcome of one `requests.post` to a feed's `/data` endpoint. -/
inductive PostResp where
  | netErr (detail : String)
  | ok2xx
deriving DecidableEq, Repr

/-- `send_control_command` (lines 60-75).  `net` maps a feed path to the
outcome of the POST.  Returns the `(ok, message)` pair together with the
list of dispatches `(feed_key, value)` actually sent over the network
(at most one: there are no retries). -/
def send_control_command (net : String → PostResp) (feed_key value : String) :
    (Bool × String) × List (String × String) :=
  match feedsGet feed_key with
  | none => ((false, "Invalid feed key"), [])
  | some fn =>
    if fn = "" then ((false, "Invalid feed key"), [])
    else
      match net fn with
      | .ok2xx => ((true, "Success"), [(feed_key, value)])
      | .netErr e => ((false, "Error: " ++ e), [(feed_key, value)])

/-! ### Database layer -/

/-- A civil timestamp as psycopg2 hands back a `timestamp` column value
(a Python `datetime`). -/
structure Timestamp where
  year : Nat
  month : Nat
  day : Nat
  hour : Nat
  minute : Nat
  second : Nat
deriving DecidableEq, Repr

/-- The calendar-date component, as computed by SQL `DATE(ts_iso)`. -/
structure CalDate where
  year : Nat
  month : Nat
  day : Nat
deriving DecidableEq, Repr

/-- `DATE(ts_iso)` — the date component of a timestamp. -/
def Timestamp.dateOf (t : Timestamp) : CalDate :=
  ⟨t.year, t.month, t.day⟩

/-- Linearisation key for timestamp comparison (fields are lexicographically
significant; the radices are large enough for any civil value). -/
def Timestamp.key (t : Timestamp) : Nat :=
  ((((t.year * 13 + t.month) * 32 + t.day) * 24 + t.hour) * 60 + t.minute) * 60
    + t.second

/-- Zero-padded two-digit decimal rendering, as `strftime` does for
`%m %d %H %M %S`. -/
def pad2 (n : Nat) : String :=
  if n < 10 then "0" ++ toString n else toString n

/-- Zero-padded four-digit decimal rendering, as `strftime` does for `%Y`. -/
def pad4 (n : Nat) : String :=
  if n < 10 then "000" ++ toString n
  else if n < 100 then "00" ++ toString n
  else if n < 1000 then "0" ++ toString n
  else toString n

/-- `row[0].strftime('%H:%M')` (app.py line 117). -/
def Timestamp.fmtHM (t : Timestamp) : String :=
  pad2 t.hour ++ ":" ++ pad2 t.minute

/-- `ts.strftime('%Y-%m-%d %H:%M:%S')` (app.py line 162). -/
def Timestamp.fmtFull (t : Timestamp) : String :=
  pad4 t.year ++ "-" ++ pad2 t.month ++ "-" ++ pad2 t.day ++ " "
    ++ pad2 t.hour ++ ":" ++ pad2 t.minute ++ ":" ++ pad2 t.second

/-- A numeric sensor column value as fetched from the store: either a value
that Python `float(·)` coerces (numerics and numeric strings, modelled by the
rational it denotes), or SQL `NULL` (Python `None`, on which `float` raises
`TypeError`). -/
inductive ColVal where
  | num (q : ℚ)
  | nul
deriving DecidableEq, Repr

/-- `float(x)`: `some` the numeric value, or `none` when the coercion raises. -/
def pyFloat : ColVal → Option ℚ
  | .num q => some q
  | .nul => none

/-- The stored motion flag: the store may hold it as a boolean or as an
integer. -/
inductive MotionVal where
  | asBool (v : Bool)
  | asInt (v : Int)
deriving DecidableEq, Repr

/-- SQL predicate `(motion = TRUE OR motion = 1)` (app.py line 153). -/
def motionTruthy : MotionVal → Bool
  | .asBool v => v
  | .asInt v => v = 1

/-- One row of the `sensor_data` table (§6 of the spec: a timestamp column
`ts_iso`, numeric columns `temp_c` and `humidity_pct`, a bool/int `motion`
flag, and a nullable `image_path`). -/
structure Row where
  ts : Timestamp
  temp_c : ColVal
  humidity_pct : ColVal
  motion : MotionVal
  image_path : Option String
deriving DecidableEq, Repr

/-- Column projection used by the `SELECT ts_iso, {db_column}` query once
`db_column` has been chosen from `DB_SENSOR_MAP`. -/
def Row.column (r : Row) (c : String) : ColVal :=
  if c = "temp_c" then r.temp_c
  else if c = "humidity_pct" then r.humidity_pct
  else .nul

/-- Oracle for one interaction with the Neon store: whether
`psycopg2.connect` succeeds, whether `cursor.execute` raises a
`psycopg2.Error` (and with what rendered message), and the contents of the
`sensor_data` table. -/
structure DBEnv where
  connectOk : Bool
  queryFails : Bool
  queryErrMsg : String
  table : List Row

/-- Connection-lifecycle accounting across one operation: connection
attempts, connections actually opened, connections closed, and queries
executed. -/
structure ConnStats where
  attempted : Nat
  opened : Nat
  closed : Nat
  queried : Nat
deriving DecidableEq, Repr

/-- Row ordering of `ORDER BY ts_iso` (ascending). -/
def rowLeAsc (a b : Row) : Prop :=
  a.ts.key ≤ b.ts.key

/-- Row ordering of `ORDER BY ts_iso DESC` (descending). -/
def rowLeDesc (a b : Row) : Prop :=
  b.ts.key ≤ a.ts.key

instance : DecidableRel rowLeAsc := fun _ _ => Nat.decLe _ _

instance : DecidableRel rowLeDesc := fun _ _ => Nat.decLe _ _

instance : IsTotal Row rowLeAsc :=
  ⟨fun a b => Nat.le_total a.ts.key b.ts.key⟩

instance : IsTrans Row rowLeAsc :=
  ⟨fun _ _ _ h h' => Nat.le_trans h h'⟩

instance : IsTotal Row rowLeDesc :=
  ⟨fun a b => Nat.le_total b.ts.key a.ts.key⟩

instance : IsTrans Row rowLeDesc :=
  ⟨fun _ _ _ h h' => Nat.le_trans h' h⟩

/-- Result set of the historical query (app.py lines 106-114):
`SELECT ts_iso, col FROM sensor_data WHERE DATE(ts_iso) = %s ORDER BY ts_iso`. -/
def histRows (table : List Row) (date : CalDate) : List Row :=
  List.insertionSort rowLeAsc (table.filter fun r => r.ts.dateOf = date)

/-- Result set of the intrusion query (app.py lines 150-157):
`SELECT ts_iso, image_path FROM sensor_data WHERE DATE(ts_iso) = %s
AND (motion = TRUE OR motion = 1) AND image_path IS NOT NULL
ORDER BY ts_iso DESC`. -/
def intruRows (table : List Row) (date : CalDate) : List Row :=
  List.insertionSort rowLeDesc
    (table.filter fun r =>
      r.ts.dateOf = date && motionTruthy r.motion && r.image_path.isSome)

/-- `values = [float(row[1]) for row in results]` (app.py line 118), raising
at the first non-coercible value as the Python comprehension does. -/
def floatMany : List ColVal → Except String (List ℚ)
  | [] => .ok []
  | v :: vs =>
    match pyFloat v with
    | none => .error "TypeError: float() argument"
    | some q => (floatMany vs).map (q :: ·)

/-- Python `str.capitalize()`: first character upper-cased, the rest
lower-cased (ASCII case mapping). -/
def pyCapitalize (s : String) : String :=
  match s.toList with
  | [] => ""
  | c :: cs => String.mk (c.toUpper :: cs.map Char.toLower)

/-- The Chart.js payload built by `fetch_historical_data`
(app.py lines 120-128): one dataset whose `label` is the capitalized sensor
name. -/
structure ChartData where
  labels : List String
  datasetLabel : String
  dataValues : List ℚ
  borderColor : String
  tension : ℚ
deriving DecidableEq, Repr

/-- `fetch_historical_data(date, sensor)` (app.py lines 87-136), with the
connection lifecycle made explicit.  The result is `Except.error` when an
exception escapes the function (a `float` coercion failure is not a
`psycopg2.Error`, so the `except` clause does not catch it; the `finally`
clause still closes the connection first), and otherwise the Python
`(data, error)` return value. -/
def fetch_historical_data (env : DBEnv) (date : CalDate) (sensor : String) :
    Except String (Option ChartData × Option String) × ConnStats :=
  if ¬env.connectOk then
    (.ok (none, some "Failed to connect to the cloud database."),
     ⟨1, 0, 0, 0⟩)
  else if dbSensorGet sensor = none then
    (.ok (none, some "Invalid sensor requested."), ⟨1, 1, 1, 0⟩)
  else if env.queryFails then
    (.ok (none, some ("Database Query Error: " ++ env.queryErrMsg)),
     ⟨1, 1, 1, 1⟩)
  else
    let col := (dbSensorGet sensor).getD ""
    let results := histRows env.table date
    let labels := results.map (·.ts.fmtHM)
    match floatMany (results.map (·.column col)) with
    | .error e => (.error e, ⟨1, 1, 1, 1⟩)
    | .ok values =>
      (.ok (some ⟨labels, pyCapitalize sensor, values, "#3498db", 3 / 10⟩,
            none),
       ⟨1, 1, 1, 1⟩)

/-- One entry of the intrusion log (app.py lines 161-164). -/
structure LogEntry where
  timestamp : String
  image_path : String
deriving DecidableEq, Repr

/-- `path or "No image recorded"` (app.py line 163): Python `or` falls back
on a falsy path (`None` or the empty string). -/
def pathOrPlaceholder : Option String → String
  | none => "No image recorded"
  | some p => if p = "" then "No image recorded" else p

/-- `fetch_intrusion_logs(date)` (app.py lines 138-172), with the connection
lifecycle made explicit. -/
def fetch_intrusion_logs (env : DBEnv) (date : CalDate) :
    (List LogEntry × Option String) × ConnStats :=
  if ¬env.connectOk then
    (([], some "Failed to connect to the cloud database."), ⟨1, 0, 0, 0⟩)
  else if env.queryFails then
    (([], some ("Database Query Error: " ++ env.queryErrMsg)), ⟨1, 1, 1, 1⟩)
  else
    (((intruRows env.table date).map fun r =>
        ⟨r.ts.fmtFull, pathOrPlaceholder r.image_path⟩,
      none),
     ⟨1, 1, 1, 1⟩)

/-! ### Routes: the control API and the security page POST handler -/

/-- Python `str.lower()` (ASCII case mapping). -/
def pyLower (s : String) : String :=
  String.mk (s.toList.map Char.toLower)

/-- Python `str.upper()` (ASCII case mapping). -/
def pyUpper (s : String) : String :=
  String.mk (s.toList.map Char.toUpper)

/-- `device.replace('_', ' ')` (app.py line 286). -/
def pyReplaceUnderscore (s : String) : String :=
  String.mk (s.toList.map fun c => if c = '_' then ' ' else c)

/-- The `feed_key_map` of `control_device_api` (app.py lines 258-262). -/
def feed_key_map : List (String × String) :=
  [("light", "ctrl_light"), ("lcd_text", "ctrl_lcd_text"),
   ("mode", "ctrl_mode")]

/-- The JSON body plus HTTP status produced by `control_device_api`. -/
structure ApiResp where
  success : Bool
  message : String
  status : Nat
deriving DecidableEq, Repr

/-- `control_device_api(device, value)` (app.py lines 254-288).  Returns the
response together with the list of dispatches `(feed_key, control_value)`
handed to `send_control_command` and actually POSTed to the feed service. -/
def control_device_api (net : String → PostResp) (device value : String) :
    ApiResp × List (String × String) :=
  match feed_key_map.lookup device with
  | none => (⟨false, "Invalid device", 400⟩, [])
  | some feed_key =>
    if device = "lcd_text" ∧ value.length > 32 then
      (⟨false, "Text must be 32 characters or less.", 400⟩, [])
    else
      let control_value :=
        if device = "lcd_text" then value
        else if device = "mode" then
          if pyLower value = "on" then "ARMED" else "DISARMED"
        else pyUpper value
      let sent := send_control_command net feed_key control_value
      if sent.1.1 then
        (⟨true,
          if device = "lcd_text" then
            pyCapitalize (pyReplaceUnderscore device) ++ " set to \x27"
              ++ control_value ++ "\x27"
          else pyCapitalize device ++ " set to " ++ control_value,
          200⟩,
         sent.2)
      else
        (⟨false, "Failed to control " ++ device ++ ": " ++ sent.1.2, 500⟩,
         sent.2)

/-- The template context produced by the `manage_security` POST handler. -/
structure SecurityView where
  status_msg : Option String
  intrusion_logs : List LogEntry
  log_error : Option String
  selected_log_date : Option CalDate
deriving Repr

/-- The `request.method == 'POST'` branch of `manage_security`
(app.py lines 221-244).  `action` and `log_date` model
`request.form.get(...)` (absent fields are `none`); the result carries the
rendered view, the control dispatches made, and the database connection
statistics (zero when no database call happens). -/
def manage_security_post (net : String → PostResp) (env : DBEnv)
    (action : Option String) (log_date : Option CalDate) :
    SecurityView × List (String × String) × ConnStats :=
  if action = some "arm" then
    let sent := send_control_command net "ctrl_mode" "ARMED"
    (⟨some ("Security System: "
        ++ (if sent.1.1 then "ARMED" else "Failed to Arm")
        ++ ". Message: " ++ sent.1.2), [], none, none⟩,
     sent.2, ⟨0, 0, 0, 0⟩)
  else if action = some "disarm" then
    let sent := send_control_command net "ctrl_mode" "DISARMED"
    (⟨some ("Security System: "
        ++ (if sent.1.1 then "DISARMED" else "Failed to Disarm")
        ++ ". Message: " ++ sent.1.2), [], none, none⟩,
     sent.2, ⟨0, 0, 0, 0⟩)
  else if action = some "get_logs" then
    match log_date with
    | some d =>
      let fetched := fetch_intrusion_logs env d
      (⟨none, fetched.1.1, fetched.1.2, some d⟩, [], fetched.2)
    | none =>
      (⟨none, [], some "Please select a date to fetch logs.", none⟩,
       [], ⟨0, 0, 0, 0⟩)
  else
    (⟨none, [], none, none⟩, [], ⟨0, 0, 0, 0⟩)

/-! ### Helper lemmas -/

/-- A key whose registry lookup is falsy never contributes an entry to the
live-fetch result. -/
theorem fetch_live_loop_lookup_falsy (net : String → FeedResp)
    (ks : List String) (k : String) (h : pyFalsyOptStr (feedsGet k) = true) :
    (fetch_live_loop net ks).1.lookup k = none := by
  induction ks with
  | nil => rfl
  | cons j js ih =>
    by_cases hjk : k = j
    · subst hjk
      unfold fetch_live_loop
      cases hj : feedsGet k with
      | none => simpa [hj] using ih
      | some fn =>
        simp only [pyFalsyOptStr, hj, decide_eq_true_eq] at h
        simpa [hj, h] using ih
    · unfold fetch_live_loop
      cases hj : feedsGet j with
      | none => simpa [hj] using ih
      | some fn =>
        by_cases hfn : fn = ""
        · simpa [hj, hfn] using ih
        · have hbeq : (k == j) = false := beq_eq_false_iff_ne.mpr hjk
          simpa [hj, hfn, List.lookup, hbeq] using ih

/-- The network calls of the live-fetch loop are exactly the feed paths of
the requested keys whose registry lookup is truthy, in request order. -/
theorem fetch_live_loop_calls (net : String → FeedResp) (ks : List String) :
    (fetch_live_loop net ks).2 =
      (ks.filter fun j => !pyFalsyOptStr (feedsGet j)).map
        fun j => (feedsGet j).getD "" := by
  induction ks with
  | nil => rfl
  | cons j js ih =>
    unfold fetch_live_loop
    cases hj : feedsGet j with
    | none => simpa [List.filter, pyFalsyOptStr, hj] using ih
    | some fn =>
      by_cases hfn : fn = ""
      · simpa [List.filter, pyFalsyOptStr, hj, hfn] using ih
      · simpa [List.filter, pyFalsyOptStr, hj, hfn] using ih

/-- Anything `send_control_command` dispatches is exactly the requested
`(feed_key, value)` pair. -/
theorem send_control_dispatch_mem (net : String → PostResp)
    (k v : String) (p : String × String)
    (hp : p ∈ (send_control_command net k v).2) : p = (k, v) := by
  unfold send_control_command at hp
  cases hk : feedsGet k with
  | none => simp [hk] at hp
  | some fn =>
    by_cases hfn : fn = ""
    · simp [hk, hfn] at hp
    · cases hn : net fn <;> simp [hk, hfn, hn] at hp <;> simp [hp]

/-- `floatMany` succeeds exactly with the pointwise coercions. -/
theorem floatMany_ok_map (xs : List ColVal) (vs : List ℚ)
    (h : floatMany xs = .ok vs) : vs.map some = xs.map pyFloat := by
  induction xs generalizing vs with
  | nil =>
    simp only [floatMany] at h
    cases h
    rfl
  | cons x xs ih =>
    simp only [floatMany] at h
    cases hx : pyFloat x with
    | none => simp [hx] at h
    | some q =>
      rw [hx] at h
      cases hrest : floatMany xs with
      | error e => simp [hrest, Except.map] at h
      | ok ws =>
        rw [hrest] at h
        simp only [Except.map] at h
        cases h
        simp [hx, ih ws hrest]

/-! ### Claims -/

/-- C1: over the monitored keys present in the registry (`temperature`,
`humidity`, `motion`), `fetch_live_data` never fails as a whole and returns
exactly one entry per requested key; a network failure or non-success status
for one key yields the sentinel `"Error"`, a body lacking a `value` field
yields `"N/A"`, and each key's entry depends only on its own feed's
response, so one key's failure leaves the others unaffected. -/
theorem fetch_live_total_and_isolated (net : String → FeedResp) :
    (fetch_live_data net).1 =
      [("temperature", liveValue (net "home/temperature")),
       ("humidity", liveValue (net "home/humidity")),
       ("motion", liveValue (net "home/motion"))] ∧
    liveValue FeedResp.netErr = "Error" ∧
    liveValue (FeedResp.ok none) = "N/A" ∧
    ∀ v, liveValue (FeedResp.ok (some v)) = v := by
  refine ⟨rfl, rfl, rfl, fun v => rfl⟩

/-- C5 counterexample: requesting a key absent from the registry (here
`"power"`) does not produce any rejection error — the loop body silently
skips the key, so the result mapping has no entry (and no error value) for
it, and no network call is made at all. -/
theorem fetch_live_unknown_key_counterexample :
    fetch_live_loop (fun _ => FeedResp.netErr) ["power"] = ([], []) ∧
    (fetch_live_loop (fun _ => FeedResp.netErr) ["power"]).1.lookup "power" =
      none := by
  exact ⟨rfl, rfl⟩

/-- C5 (amended): a requested sensor key not present in the feed registry is
silently skipped by the live-fetch loop: no network call is made for it and
the result mapping simply omits the key (no error value is surfaced for it);
the network calls made are exactly those for the keys that do resolve. -/
theorem fetch_live_unknown_key_skipped (net : String → FeedResp)
    (ks : List String) (k : String)
    (h : pyFalsyOptStr (feedsGet k) = true) :
    (fetch_live_loop net ks).1.lookup k = none ∧
    (fetch_live_loop net ks).2 =
      (ks.filter fun j => !pyFalsyOptStr (feedsGet j)).map
        fun j => (feedsGet j).getD "" :=
  ⟨fetch_live_loop_lookup_falsy net ks k h, fetch_live_loop_calls net ks⟩

/-- C5 witness: the amended theorem applied to the request list
`["power", "temperature"]` and the unmapped key `"power"`. -/
theorem fetch_live_unknown_key_skipped_witness :
    (fetch_live_loop (fun _ => FeedResp.ok none)
        ["power", "temperature"]).1.lookup "power" = none ∧
    (fetch_live_loop (fun _ => FeedResp.ok none) ["power", "temperature"]).2 =
      (["power", "temperature"].filter
          fun j => !pyFalsyOptStr (feedsGet j)).map
        fun j => (feedsGet j).getD "" :=
  fetch_live_unknown_key_skipped (fun _ => FeedResp.ok none)
    ["power", "temperature"] "power" (by decide)

/-- C6: `send_control_command` with an unresolvable feed key returns
`(false, "Invalid feed key")` and makes no network call; with a resolvable
key it makes exactly one attempt, returning `(true, "Success")` on a
successful POST and `(false, errorDetail)` on a network error or
non-success status. -/
theorem send_control_contract (net : String → PostResp) (k v : String) :
    (pyFalsyOptStr (feedsGet k) = true →
      send_control_command net k v = ((false, "Invalid feed key"), [])) ∧
    ∀ fn, feedsGet k = some fn → fn ≠ "" →
      (net fn = PostResp.ok2xx →
        send_control_command net k v = ((true, "Success"), [(k, v)])) ∧
      ∀ e, net fn = PostResp.netErr e →
        send_control_command net k v =
          ((false, "Error: " ++ e), [(k, v)]) := by
  constructor
  · intro h
    unfold send_control_command
    cases hk : feedsGet k with
    | none => rfl
    | some fn =>
      simp only [pyFalsyOptStr, hk, decide_eq_true_eq] at h
      simp [h]
  · intro fn hfn hne
    constructor
    · intro hok
      unfold send_control_command
      simp [hfn, hne, hok]
    · intro e herr
      unfold send_control_command
      simp [hfn, hne, herr]

/-- C6 witness: the contract applied to the resolvable key `"ctrl_mode"`
(success and failure networks) and the unresolvable key `"fan"`. -/
theorem send_control_contract_witness :
    send_control_command (fun _ => PostResp.ok2xx) "ctrl_mode" "ARMED" =
      ((true, "Success"), [("ctrl_mode", "ARMED")]) ∧
    send_control_command (fun _ => PostResp.netErr "timeout") "ctrl_mode"
        "ARMED" =
      ((false, "Error: timeout"), [("ctrl_mode", "ARMED")]) ∧
    send_control_command (fun _ => PostResp.ok2xx) "fan" "ON" =
      ((false, "Invalid feed key"), []) :=
  ⟨((send_control_contract (fun _ => PostResp.ok2xx) "ctrl_mode" "ARMED").2
      "home/control/mode" rfl (by decide)).1 rfl,
   (((send_control_contract (fun _ => PostResp.netErr "timeout") "ctrl_mode"
      "ARMED").2 "home/control/mode" rfl (by decide)).2 "timeout") rfl,
   (send_control_contract (fun _ => PostResp.ok2xx) "fan" "ON").1 (by decide)⟩

/-- C2: on every exit path of both database operations — success, query
error, mapping error (the escaping `float` exception), the invalid-sensor
rejection, and connection failure — the number of connections opened equals
the number closed: the `finally` clause closes any opened connection before
the operation returns. -/
theorem db_connection_release_balanced (env : DBEnv) (date : CalDate)
    (sensor : String) :
    (fetch_historical_data env date sensor).2.opened =
      (fetch_historical_data env date sensor).2.closed ∧
    (fetch_intrusion_logs env date).2.opened =
      (fetch_intrusion_logs env date).2.closed := by
  constructor
  · unfold fetch_historical_data
    split
    · rfl
    split
    · rfl
    split
    · rfl
    dsimp only
    split <;> rfl
  · unfold fetch_intrusion_logs
    split
    · rfl
    split <;> rfl

/-- C3 counterexample: requesting the unmapped sensor `"power"` against a
store whose connection succeeds does return the invalid-sensor rejection,
but only after one database connection has been attempted and opened — not
before, as the claim states. -/
theorem hist_invalid_sensor_connects_counterexample :
    fetch_historical_data ⟨true, false, "", []⟩ ⟨2024, 1, 1⟩ "power" =
      (.ok (none, some "Invalid sensor requested."), ⟨1, 1, 1, 0⟩) ∧
    (fetch_historical_data ⟨true, false, "", []⟩ ⟨2024, 1, 1⟩
        "power").2.attempted = 1 ∧
    (fetch_historical_data ⟨true, false, "", []⟩ ⟨2024, 1, 1⟩
        "power").2.opened = 1 :=
  ⟨rfl, rfl, rfl⟩

/-- C3 (amended): for a sensor key with no database column mapping,
`fetch_historical_data` first opens a database connection and only then
rejects with the invalid-sensor error, executing zero queries; the
connection is closed before returning.  (When the connection itself fails,
the connection error is returned instead of the invalid-sensor error.) -/
theorem hist_invalid_sensor_after_connect (env : DBEnv) (date : CalDate)
    (sensor : String) (hs : dbSensorGet sensor = none)
    (hc : env.connectOk = true) :
    fetch_historical_data env date sensor =
      (.ok (none, some "Invalid sensor requested."), ⟨1, 1, 1, 0⟩) := by
  unfold fetch_historical_data
  simp [hs, hc]

/-- C3 witness: the amended theorem applied to the sensor `"motion"`
(present in the feed registry, absent from the column map) with a reachable
store. -/
theorem hist_invalid_sensor_after_connect_witness :
    fetch_historical_data ⟨true, false, "", []⟩ ⟨2024, 5, 6⟩ "motion" =
      (.ok (none, some "Invalid sensor requested."), ⟨1, 1, 1, 0⟩) :=
  hist_invalid_sensor_after_connect ⟨true, false, "", []⟩ ⟨2024, 5, 6⟩
    "motion" rfl rfl

/-- C9: on the success path, `fetch_historical_data` returns exactly the
rows whose date component equals the requested date, in ascending timestamp
order, each mapped to an `HH:MM` label and to the stored column value
coerced to a number, bundled under the capitalized sensor name. -/
theorem hist_success_chart_shape (env : DBEnv) (date : CalDate)
    (sensor col : String) (hcol : dbSensorGet sensor = some col)
    (hc : env.connectOk = true) (hq : env.queryFails = false)
    (vals : List ℚ)
    (hv : floatMany ((histRows env.table date).map (·.column col)) =
      .ok vals) :
    ∃ rs : List Row,
      rs.Perm (env.table.filter fun r => r.ts.dateOf = date) ∧
      rs.Sorted rowLeAsc ∧
      fetch_historical_data env date sensor =
        (.ok (some ⟨rs.map (·.ts.fmtHM), pyCapitalize sensor, vals,
                    "#3498db", 3 / 10⟩, none),
         ⟨1, 1, 1, 1⟩) ∧
      vals.map some = (rs.map fun r => r.column col).map pyFloat := by
  refine ⟨histRows env.table date, ?_, ?_, ?_, floatMany_ok_map _ _ hv⟩
  · exact List.perm_insertionSort _ _
  · exact List.sorted_insertionSort _ _
  · unfold fetch_historical_data
    simp [hcol, hc, hq, hv]

/-- C9 witness: a store holding two `temperature` rows for the requested
date, listed out of time order; the chart has them in ascending time order
with `HH:MM` labels and their numeric values. -/
theorem hist_success_chart_shape_witness :
    ∃ rs : List Row,
      rs.Perm (([⟨⟨2024, 1, 2, 9, 5, 0⟩, .num 21, .num 50, .asBool false,
                  none⟩,
                 ⟨⟨2024, 1, 2, 8, 0, 30⟩, .num 20, .num 55, .asBool false,
                  none⟩] : List Row).filter
        fun r => r.ts.dateOf = ⟨2024, 1, 2⟩) ∧
      rs.Sorted rowLeAsc ∧
      fetch_historical_data
          ⟨true, false, "",
           [⟨⟨2024, 1, 2, 9, 5, 0⟩, .num 21, .num 50, .asBool false, none⟩,
            ⟨⟨2024, 1, 2, 8, 0, 30⟩, .num 20, .num 55, .asBool false,
             none⟩]⟩
          ⟨2024, 1, 2⟩ "temperature" =
        (.ok (some ⟨rs.map (·.ts.fmtHM), pyCapitalize "temperature",
                    [20, 21], "#3498db", 3 / 10⟩, none),
         ⟨1, 1, 1, 1⟩) ∧
      ([20, 21] : List ℚ).map some =
        (rs.map fun r => r.column "temp_c").map pyFloat :=
  hist_success_chart_shape
    ⟨true, false, "",
     [⟨⟨2024, 1, 2, 9, 5, 0⟩, .num 21, .num 50, .asBool false, none⟩,
      ⟨⟨2024, 1, 2, 8, 0, 30⟩, .num 20, .num 55, .asBool false, none⟩]⟩
    ⟨2024, 1, 2⟩ "temperature" "temp_c" rfl rfl rfl [20, 21] rfl

/-- C4 counterexample: with two motion rows sharing the timestamp
`2024-01-02 03:04:05`, `fetch_intrusion_logs` returns both entries with
equal timestamps, so the returned sequence is not strictly descending in
timestamp. -/
theorem intrusion_equal_ts_not_strict_counterexample :
    ((fetch_intrusion_logs
        ⟨true, false, "",
         [⟨⟨2024, 1, 2, 3, 4, 5⟩, .num 20, .num 50, .asBool true,
           some "a.jpg"⟩,
          ⟨⟨2024, 1, 2, 3, 4, 5⟩, .num 21, .num 51, .asInt 1,
           some "b.jpg"⟩]⟩
        ⟨2024, 1, 2⟩).1.1.map (·.timestamp)) =
      ["2024-01-02 03:04:05", "2024-01-02 03:04:05"] ∧
    ¬ List.Pairwise (fun a b : LogEntry => b.timestamp < a.timestamp)
        (fetch_intrusion_logs
          ⟨true, false, "",
           [⟨⟨2024, 1, 2, 3, 4, 5⟩, .num 20, .num 50, .asBool true,
             some "a.jpg"⟩,
            ⟨⟨2024, 1, 2, 3, 4, 5⟩, .num 21, .num 51, .asInt 1,
             some "b.jpg"⟩]⟩
          ⟨2024, 1, 2⟩).1.1 := by
  constructor
  · rfl
  · have hlogs :
        (fetch_intrusion_logs
          ⟨true, false, "",
           [⟨⟨2024, 1, 2, 3, 4, 5⟩, .num 20, .num 50, .asBool true,
             some "a.jpg"⟩,
            ⟨⟨2024, 1, 2, 3, 4, 5⟩, .num 21, .num 51, .asInt 1,
             some "b.jpg"⟩]⟩
          ⟨2024, 1, 2⟩).1.1 =
        [⟨"2024-01-02 03:04:05", "a.jpg"⟩,
         ⟨"2024-01-02 03:04:05", "b.jpg"⟩] := rfl
    intro hp
    rw [hlogs] at hp
    exact absurd ((List.pairwise_cons.mp hp).1 _ (List.mem_cons_self _ _))
      (lt_irrefl _)

/-- C4 (amended): `fetch_intrusion_logs` returns, on the success path, the
rows of the requested date whose motion flag is truthy (boolean true or
integer 1) and whose image path is non-null, in descending (non-increasing;
strict whenever row timestamps are distinct) timestamp order; since null
paths are filtered out by the query, no returned row comes from a null
path, and the placeholder `"No image recorded"` is substituted exactly when
the stored path is falsy (null or empty — reachable only for the empty
string). -/
theorem intrusion_logs_order_filter_placeholder (env : DBEnv)
    (date : CalDate) (hc : env.connectOk = true)
    (hq : env.queryFails = false) :
    ∃ rs : List Row,
      rs.Perm (env.table.filter fun r =>
        r.ts.dateOf = date && motionTruthy r.motion &&
          r.image_path.isSome) ∧
      rs.Sorted rowLeDesc ∧
      (fetch_intrusion_logs env date).1 =
        (rs.map fun r => ⟨r.ts.fmtFull, pathOrPlaceholder r.image_path⟩,
         none) ∧
      (∀ r ∈ rs,
        r.ts.dateOf = date ∧ motionTruthy r.motion = true ∧
          r.image_path ≠ none) ∧
      pathOrPlaceholder (some "") = "No image recorded" ∧
      pathOrPlaceholder none = "No image recorded" ∧
      ∀ p, p ≠ "" → pathOrPlaceholder (some p) = p := by
  refine ⟨intruRows env.table date, ?_, ?_, ?_, ?_, rfl, rfl, ?_⟩
  · exact List.perm_insertionSort _ _
  · exact List.sorted_insertionSort _ _
  · unfold fetch_intrusion_logs
    simp [hc, hq, intruRows]
  · intro r hr
    have hmem : r ∈ env.table.filter fun r =>
        r.ts.dateOf = date && motionTruthy r.motion &&
          r.image_path.isSome :=
      (List.perm_insertionSort _ _).mem_iff.mp hr
    have hcond := List.of_mem_filter hmem
    simp only [Bool.and_eq_true, decide_eq_true_eq] at hcond
    refine ⟨hcond.1.1, hcond.1.2, ?_⟩
    intro hnone
    rw [hnone] at hcond
    simp [Option.isSome] at hcond
  · intro p hp
    simp [pathOrPlaceholder, hp]

/-- C4 witness: the amended theorem applied to a one-row store whose single
motion row has an empty image path, with the connection up and the query
succeeding. -/
theorem intrusion_logs_order_filter_placeholder_witness :
    ∃ rs : List Row,
      rs.Perm (([⟨⟨2024, 1, 2, 3, 4, 5⟩, .num 20, .num 50, .asBool true,
                  some ""⟩] : List Row).filter fun r =>
        r.ts.dateOf = ⟨2024, 1, 2⟩ && motionTruthy r.motion &&
          r.image_path.isSome) ∧
      rs.Sorted rowLeDesc ∧
      (fetch_intrusion_logs
          ⟨true, false, "",
           [⟨⟨2024, 1, 2, 3, 4, 5⟩, .num 20, .num 50, .asBool true,
             some ""⟩]⟩ ⟨2024, 1, 2⟩).1 =
        (rs.map fun r => ⟨r.ts.fmtFull, pathOrPlaceholder r.image_path⟩,
         none) ∧
      (∀ r ∈ rs,
        r.ts.dateOf = ⟨2024, 1, 2⟩ ∧ motionTruthy r.motion = true ∧
          r.image_path ≠ none) ∧
      pathOrPlaceholder (some "") = "No image recorded" ∧
      pathOrPlaceholder none = "No image recorded" ∧
      ∀ p, p ≠ "" → pathOrPlaceholder (some p) = p :=
  intrusion_logs_order_filter_placeholder
    ⟨true, false, "",
     [⟨⟨2024, 1, 2, 3, 4, 5⟩, .num 20, .num 50, .asBool true, some ""⟩]⟩
    ⟨2024, 1, 2⟩ rfl rfl

/-- C7: the control API rejects invalid input with status 400 before any
dispatch: an unmapped device yields `"Invalid device"` with no network
call, and for `lcd_text` a value longer than 32 characters is rejected with
no network call while a value of at most 32 characters (including exactly
32) is forwarded verbatim as the control value. -/
theorem control_api_rejects_before_dispatch (net : String → PostResp)
    (device value : String) :
    (feed_key_map.lookup device = none →
      control_device_api net device value =
        (⟨false, "Invalid device", 400⟩, [])) ∧
    (value.length > 32 →
      control_device_api net "lcd_text" value =
        (⟨false, "Text must be 32 characters or less.", 400⟩, [])) ∧
    (value.length ≤ 32 →
      (control_device_api net "lcd_text" value).2 =
        [("ctrl_lcd_text", value)]) := by
  have hmap : feed_key_map.lookup "lcd_text" = some "ctrl_lcd_text" := rfl
  have hfeed : feedsGet "ctrl_lcd_text" = some "home/control/lcd_message" :=
    rfl
  refine ⟨?_, ?_, ?_⟩
  · intro h
    unfold control_device_api
    rw [h]
  · intro h
    unfold control_device_api
    rw [hmap]
    simp [h]
  · intro h
    have hgt : ¬value.length > 32 := Nat.not_lt.mpr h
    unfold control_device_api send_control_command
    rw [hmap]
    cases hnet : net "home/control/lcd_message" <;>
      simp [hgt, hfeed, hnet]

/-- C7 witness: the theorem applied to the unmapped device `"fan"`, a
33-character LCD text, and a 32-character LCD text. -/
theorem control_api_rejects_before_dispatch_witness :
    control_device_api (fun _ => PostResp.ok2xx) "fan" "ON" =
      (⟨false, "Invalid device", 400⟩, []) ∧
    control_device_api (fun _ => PostResp.ok2xx) "lcd_text"
        "aaaaaaaaaaaaaaaaaaaaaaaaaaaaaaaaa" =
      (⟨false, "Text must be 32 characters or less.", 400⟩, []) ∧
    (control_device_api (fun _ => PostResp.ok2xx) "lcd_text"
        "bbbbbbbbbbbbbbbbbbbbbbbbbbbbbbbb").2 =
      [("ctrl_lcd_text", "bbbbbbbbbbbbbbbbbbbbbbbbbbbbbbbb")] :=
  ⟨(control_api_rejects_before_dispatch (fun _ => PostResp.ok2xx) "fan"
      "ON").1 rfl,
   (control_api_rejects_before_dispatch (fun _ => PostResp.ok2xx) "fan"
      "aaaaaaaaaaaaaaaaaaaaaaaaaaaaaaaaa").2.1 (by decide),
   (control_api_rejects_before_dispatch (fun _ => PostResp.ok2xx) "fan"
      "bbbbbbbbbbbbbbbbbbbbbbbbbbbbbbbb").2.2 (by decide)⟩

/-- C8: the control API normalizes the `mode` device case-insensitively —
any raw value whose lower-casing is `"on"` dispatches `"ARMED"` and every
other raw value dispatches `"DISARMED"` — while the remaining mapped device
(`light`) dispatches the raw value upper-cased. -/
theorem control_api_mode_normalization (net : String → PostResp)
    (value : String) :
    (pyLower value = "on" →
      (control_device_api net "mode" value).2 = [("ctrl_mode", "ARMED")]) ∧
    (pyLower value ≠ "on" →
      (control_device_api net "mode" value).2 =
        [("ctrl_mode", "DISARMED")]) ∧
    (control_device_api net "light" value).2 =
      [("ctrl_light", pyUpper value)] := by
  have hmapm : feed_key_map.lookup "mode" = some "ctrl_mode" := rfl
  have hfeedm : feedsGet "ctrl_mode" = some "home/control/mode" := rfl
  have hmapl : feed_key_map.lookup "light" = some "ctrl_light" := rfl
  have hfeedl : feedsGet "ctrl_light" = some "home/control/light" := rfl
  refine ⟨?_, ?_, ?_⟩
  · intro h
    unfold control_device_api send_control_command
    rw [hmapm]
    cases hnet : net "home/control/mode" <;> simp [hfeedm, hnet, h]
  · intro h
    unfold control_device_api send_control_command
    rw [hmapm]
    cases hnet : net "home/control/mode" <;> simp [hfeedm, hnet, h]
  · unfold control_device_api send_control_command
    rw [hmapl]
    cases hnet : net "home/control/light" <;> simp [hfeedl, hnet]

/-- C8 witness: the theorem applied to `("mode", "ON")`, `("mode", "off")`
and `("light", "on")`. -/
theorem control_api_mode_normalization_witness :
    (control_device_api (fun _ => PostResp.ok2xx) "mode" "ON").2 =
      [("ctrl_mode", "ARMED")] ∧
    (control_device_api (fun _ => PostResp.ok2xx) "mode" "off").2 =
      [("ctrl_mode", "DISARMED")] ∧
    (control_device_api (fun _ => PostResp.ok2xx) "light" "on").2 =
      [("ctrl_light", pyUpper "on")] :=
  ⟨(control_api_mode_normalization (fun _ => PostResp.ok2xx) "ON").1
      (by decide),
   (control_api_mode_normalization (fun _ => PostResp.ok2xx) "off").2.1
      (by decide),
   (control_api_mode_normalization (fun _ => PostResp.ok2xx) "on").2.2⟩

/-- Any dispatch made by `control_device_api` targets the feed key the
device maps to, carrying the normalized control value. -/
theorem control_api_dispatch_mem (net : String → PostResp)
    (device value : String) (p : String × String)
    (hp : p ∈ (control_device_api net device value).2) :
    ∃ feed_key, feed_key_map.lookup device = some feed_key ∧
      p.1 = feed_key ∧
      p.2 = (if device = "lcd_text" then value
             else if device = "mode" then
               if pyLower value = "on" then "ARMED" else "DISARMED"
             else pyUpper value) := by
  unfold control_device_api at hp
  cases hd : feed_key_map.lookup device with
  | none =>
    rw [hd] at hp
    simp at hp
  | some feed_key =>
    rw [hd] at hp
    try dsimp only at hp
    by_cases hval : device = "lcd_text" ∧ value.length > 32
    · rw [if_pos hval] at hp
      simp at hp
    · rw [if_neg hval] at hp
      try dsimp only at hp
      rw [apply_ite Prod.snd] at hp
      try dsimp only at hp
      rw [ite_self] at hp
      have hpv := send_control_dispatch_mem _ _ _ _ hp
      subst hpv
      exact ⟨feed_key, rfl, rfl, rfl⟩

/-- A device that maps to the `ctrl_mode` feed key is the device
`"mode"`. -/
theorem feed_key_map_mode_only (device : String)
    (h : feed_key_map.lookup device = some "ctrl_mode") :
    device = "mode" := by
  by_cases h1 : device = "light"
  · subst h1
    exact absurd h (by decide)
  by_cases h2 : device = "lcd_text"
  · subst h2
    exact absurd h (by decide)
  by_cases h3 : device = "mode"
  · exact h3
  · have b1 : (device == "light") = false := beq_eq_false_iff_ne.mpr h1
    have b2 : (device == "lcd_text") = false := beq_eq_false_iff_ne.mpr h2
    have b3 : (device == "mode") = false := beq_eq_false_iff_ne.mpr h3
    have hnone : feed_key_map.lookup device = none := by
      simp [feed_key_map, List.lookup, b1, b2, b3]
    rw [hnone] at h
    cases h

/-- C10: every value dispatched to the `ctrl_mode` feed — whether through
the control API's `mode` branch or through the security page's arm/disarm
actions — belongs to the two-element set containing `"ARMED"` and
`"DISARMED"`. -/
theorem ctrl_mode_dispatch_invariant (net : String → PostResp) (env : DBEnv)
    (device value : String) (action : Option String)
    (log_date : Option CalDate) (p : String × String)
    (hp : p ∈ (control_device_api net device value).2 ++
      (manage_security_post net env action log_date).2.1)
    (hk : p.1 = "ctrl_mode") :
    p.2 = "ARMED" ∨ p.2 = "DISARMED" := by
  rcases List.mem_append.mp hp with hp | hp
  · obtain ⟨feed_key, hd, hp1, hp2⟩ := control_api_dispatch_mem _ _ _ _ hp
    rw [hp1] at hk
    subst hk
    have hdev := feed_key_map_mode_only device hd
    subst hdev
    rw [if_neg (by decide), if_pos rfl] at hp2
    by_cases hon : pyLower value = "on"
    · left
      rw [hp2, if_pos hon]
    · right
      rw [hp2, if_neg hon]
  · unfold manage_security_post at hp
    split at hp
    · dsimp only at hp
      have hpv := send_control_dispatch_mem _ _ _ _ hp
      left
      rw [hpv]
    split at hp
    · dsimp only at hp
      have hpv := send_control_dispatch_mem _ _ _ _ hp
      right
      rw [hpv]
    split at hp
    · split at hp <;> simp at hp
    · simp at hp

/-- C10 witness: the invariant applied to the concrete dispatch of
`("ctrl_mode", "ARMED")` produced by `control_device_api "mode" "On"`. -/
theorem ctrl_mode_dispatch_invariant_witness :
    ("ctrl_mode", "ARMED") ∈
      (control_device_api (fun _ => PostResp.ok2xx) "mode" "On").2 ++
        (manage_security_post (fun _ => PostResp.ok2xx) ⟨true, false, "", []⟩
          none none).2.1 ∧
    ((("ctrl_mode", "ARMED") : String × String).2 = "ARMED" ∨
      (("ctrl_mode", "ARMED") : String × String).2 = "DISARMED") :=
  ⟨by decide,
   ctrl_mode_dispatch_invariant (fun _ => PostResp.ok2xx)
     ⟨true, false, "", []⟩ "mode" "On" none none ("ctrl_mode", "ARMED")
     (by decide) rfl⟩

end IoTApp
